import Mathlib

/-!
# Verification of the seasocks reactor core (server.cpp, PageRequest.h)

A shallow embedding of the event-loop / connection-registry logic of
`src/main/c/server.cpp` and of `PageRequest` from
`src/main/c/internal/PageRequest.h`, together with theorems checking the
specification's statements about them.

Syscall-level behaviour (accept, setsockopt, epoll_ctl, read/write on the
wakeup pipe, close) is modelled as traces of operations; numeric constants
(epoll event bits, errno values) carry their Linux values, which is the
platform the source targets (it uses `sys/epoll.h` and `SYS_gettid`).
-/

namespace SeaSocks

/-! ## Constants (Linux values, as used by the source) -/

/-- `EPOLLIN` (Linux `sys/epoll.h`). -/
def EPOLLIN : Nat := 0x001

/-- `EPOLLOUT` (Linux `sys/epoll.h`). -/
def EPOLLOUT : Nat := 0x004

/-- `EPOLLERR` (Linux `sys/epoll.h`). -/
def EPOLLERR : Nat := 0x008

/-- `EPOLLHUP` (Linux `sys/epoll.h`). -/
def EPOLLHUP : Nat := 0x010

/-- `EAGAIN` on Linux. -/
def EAGAIN : Nat := 11

/-- `EWOULDBLOCK` on Linux (identical to `EAGAIN`). -/
def EWOULDBLOCK : Nat := 11

/-- `DefaultLameConnectionTimeoutSeconds` (server.cpp line 54). -/
def DefaultLameConnectionTimeoutSeconds : Int := 10

/-- An event mask is a 32-bit quantity; all bits outside
`EPOLLIN|EPOLLOUT|EPOLLHUP`, as computed by
`events[i].events & ~(EPOLLIN|EPOLLOUT|EPOLLHUP)` on a `uint32_t`. -/
def connUnexpectedBits : Nat := 0xFFFFFFFF ^^^ (EPOLLIN ||| EPOLLOUT ||| EPOLLHUP)

/-! ## Operations performed by the server, as a trace alphabet -/

/-- One observable operation performed by `Server` on OS or registry state. -/
inductive Op where
  /-- a call to `::accept` on the listening socket -/
  | acceptCall : Op
  /-- `setsockopt(fd, SOL_SOCKET, SO_LINGER, ...)` with `l_onoff` true and
  the given `l_linger` value (in seconds, per the sockets API) -/
  | setLinger (lingerSeconds : Int) : Op
  /-- `ioctl(fd, FIONBIO, ...)` making the descriptor non-blocking
  (`Server::makeNonBlocking`) -/
  | setNonBlocking : Op
  /-- `setsockopt(fd, SOL_SOCKET, SO_REUSEADDR, ...)` -/
  | setReuseAddr : Op
  /-- `epoll_ctl(_epollFd, EPOLL_CTL_ADD, fd, mask)` -/
  | epollAdd (mask : Nat) : Op
  /-- `epoll_ctl(_epollFd, EPOLL_CTL_DEL, ...)` -/
  | epollDel : Op
  /-- `epoll_ctl(_epollFd, EPOLL_CTL_MOD, fd, mask)` -/
  | epollMod (mask : Nat) : Op
  /-- `_connections.insert(...)` -/
  | registryInsert : Op
  /-- `_connections.erase(...)` -/
  | registryErase : Op
  /-- `::close(fd)` on the just-accepted descriptor -/
  | closeFd : Op
  /-- a call to `Server::checkThread()` -/
  | checkThreadCall : Op
  deriving DecidableEq, Repr

/-! ## Server::handleAccept (server.cpp lines 287-319)

The function performs, in source order: `::accept`; on success
`setsockopt(SO_LINGER)` with `l_linger = 500` (the comment says
"5 seconds"); `configureSocket` = `makeNonBlocking` then
`setsockopt(SO_REUSEADDR)`; `epoll_ctl(ADD, EPOLLIN)`;
`_connections.insert`.  Each boolean argument tells whether the
corresponding syscall succeeds; on failure the descriptor is closed and the
function returns early. -/

/-- Trace of operations performed by `Server::handleAccept`, given the
success of each syscall in source order. -/
def handleAccept (acceptOk lingerOk nonBlockOk reuseOk epollOk : Bool) :
    List Op :=
  Op.acceptCall ::
    (if acceptOk then
      Op.setLinger 500 ::
        (if lingerOk then
          Op.setNonBlocking ::
            (if nonBlockOk then
              Op.setReuseAddr ::
                (if reuseOk then
                  Op.epollAdd EPOLLIN ::
                    (if epollOk then [Op.registryInsert] else [Op.closeFd])
                else [Op.closeFd])
            else [Op.closeFd])
        else [Op.closeFd])
    else [])

/-! ## Server::remove (server.cpp lines 321-328) -/

/-- Trace of operations performed by `Server::remove`: `checkThread()`,
then `epoll_ctl(EPOLL_CTL_DEL)` (failure is only logged), then
`_connections.erase`. -/
def removeTrace : List Op :=
  [Op.checkThreadCall, Op.epollDel, Op.registryErase]

/-- `Server::checkThread` (server.cpp lines 416-424): returns `true` when it
throws (the calling thread differs from the recorded `_threadId`). -/
def checkThread (thisTid threadId : Int) : Bool :=
  thisTid != threadId

/-! ## Write-event subscription (server.cpp lines 330-346) -/

/-- The epoll mask installed by `Server::subscribeToWriteEvents`. -/
def subscribeToWriteEvents : List Op :=
  [Op.epollMod (EPOLLIN ||| EPOLLOUT)]

/-- The epoll mask installed by `Server::unsubscribeFromWriteEvents`. -/
def unsubscribeFromWriteEvents : List Op :=
  [Op.epollMod EPOLLIN]

/-! ## Wakeup-pipe handling (server.cpp lines 213-227)

`while (::read(_pipes[0], &dummy, sizeof(dummy)) != -1) {}` drains the
non-blocking read end; then
`if (errno != EAGAIN || errno != EWOULDBLOCK) { ...; _terminate = true; }`.
On Linux `EAGAIN == EWOULDBLOCK`, so the disjunction evaluates to
`errno != EAGAIN`. -/

/-- Bytes left in the wakeup pipe after the reactor's drain loop, given the
number of chunks available to read; each successful `read` consumes one, and
the loop only stops when `read` returns `-1` (empty, non-blocking). -/
def drainWakePipe : Nat → Nat
  | 0 => 0
  | n + 1 => drainWakePipe n

/-- The condition `errno != EAGAIN || errno != EWOULDBLOCK` guarding
`_terminate = true` after the drain loop (server.cpp line 224). -/
def wakeReadSetsTerminate (errno : Nat) : Bool :=
  (errno != EAGAIN) || (errno != EWOULDBLOCK)

/-! ## Listening-socket readiness (server.cpp lines 202-212)

When the event token is the server and the mask is exactly `EPOLLIN`, the
loop body calls `handleAccept()` once.  `handleAccept` makes a single
`::accept` call; a counting model over the backlog: -/

/-- Listen-backlog counting state: connections pending in the OS backlog and
connections accepted into the registry so far. -/
structure ListenState where
  pending : Nat
  accepted : Nat
  deriving DecidableEq, Repr

/-- Effect of one `Server::handleAccept` call on the backlog: a single
`::accept`; if the backlog is empty it returns `-1` (logged, early return),
otherwise exactly one connection is accepted and registered. -/
def handleAcceptPending (s : ListenState) : ListenState :=
  if s.pending = 0 then s
  else { pending := s.pending - 1, accepted := s.accepted + 1 }

/-- The reactor's response to one readable event on the listening socket
(server.cpp lines 210-212): one call to `handleAccept()`. -/
def serveListenReadable (s : ListenState) : ListenState :=
  handleAcceptPending s

/-- The spec's words for the same event ("accept in a loop until
would-block"): every pending connection is accepted during the event. -/
def serveListenReadableSpec (s : ListenState) : ListenState :=
  { pending := 0, accepted := s.accepted + s.pending }

/-! ## Per-connection event dispatch (server.cpp lines 229-246) -/

/-- Actions the reactor can take on a connection for one epoll event. -/
inductive ConnAction where
  /-- `connection->handleDataReadyForWrite()` -/
  | write : ConnAction
  /-- `connection->handleDataReadyForRead()` -/
  | read : ConnAction
  /-- `toBeDeleted.push_back(connection)` -/
  | queueDelete : ConnAction
  deriving DecidableEq, Repr

/-- Dispatch of one epoll event with mask `mask` on a connection token
(server.cpp lines 230-246), in source order: error bits outside
`EPOLLIN|EPOLLOUT|EPOLLHUP` queue deletion; else `EPOLLHUP` queues
deletion; else `EPOLLOUT` is serviced, then `EPOLLIN`. -/
def dispatchConnection (mask : Nat) : List ConnAction :=
  if mask &&& connUnexpectedBits != 0 then [ConnAction.queueDelete]
  else if mask &&& EPOLLHUP != 0 then [ConnAction.queueDelete]
  else
    (if mask &&& EPOLLOUT != 0 then [ConnAction.write] else []) ++
    (if mask &&& EPOLLIN != 0 then [ConnAction.read] else [])

/-! ## Lame-connection reaping (server.cpp lines 269-284) -/

/-- The registry data the reaper scan reads for one connection: the
`bytesReceived()` counter and the accept-time value stored in
`_connections`. -/
structure ConnEntry where
  bytesReceived : Nat
  acceptTime : Int
  deriving DecidableEq, Repr

/-- The scan in `Server::processEventQueue` (server.cpp lines 271-280):
`toRemove` collects exactly the connections with
`bytesReceived() == 0 && now - acceptTime >= _lameConnectionTimeoutSeconds`;
they are all then deleted. -/
def lameScan (now timeoutSeconds : Int) (conns : List ConnEntry) :
    List ConnEntry :=
  conns.filter fun c =>
    c.bytesReceived == 0 && decide (now - c.acceptTime ≥ timeoutSeconds)

/-! ## Task queue and reactor iteration (server.cpp lines 183-192, 263-268)

Each pass of `while (!_terminate)` begins with `processEventQueue()`, whose
first loop pops every pending runnable (`popNextRunnable`) and runs it, and
only then reaches `epoll_wait`. -/

/-- Events in one reactor-loop iteration, tasks abstracted by `τ`. -/
inductive LoopEvent (τ : Type) where
  /-- `runnable->run()` for a popped task -/
  | runTask (t : τ) : LoopEvent τ
  /-- the single blocking `epoll_wait` call of the iteration -/
  | pollWait : LoopEvent τ
  deriving DecidableEq, Repr

/-- The `for (;;) { popNextRunnable; run }` loop of `processEventQueue`:
pops the queue front until empty, running each task. -/
def drainTasks {τ : Type} : List τ → List (LoopEvent τ)
  | [] => []
  | t :: ts => LoopEvent.runTask t :: drainTasks ts

/-- One iteration of the `serve` loop, from its top to the `epoll_wait`
call: `processEventQueue()` (which drains the task queue), then the poll
wait. -/
def serveIteration {τ : Type} (queue : List τ) : List (LoopEvent τ) :=
  drainTasks queue ++ [LoopEvent.pollWait]

/-! ## Destructor (server.cpp lines 76-94) -/

/-- Events in `Server::~Server`, connections abstracted by handles. -/
inductive DtorEvent where
  /-- `delete _connections.begin()->first` -/
  | destroyConnection (handle : Nat) : DtorEvent
  /-- `close(_listenSock)` -/
  | closeListenSock : DtorEvent
  /-- `close(_pipes[0])` -/
  | closePipeRead : DtorEvent
  /-- `close(_pipes[1])` -/
  | closePipeWrite : DtorEvent
  /-- `close(_epollFd)` -/
  | closeEpollFd : DtorEvent
  deriving DecidableEq, Repr

/-- Is this destructor event a `close` of an OS resource? -/
def DtorEvent.isClose : DtorEvent → Bool
  | .destroyConnection _ => false
  | _ => true

/-- The `while (!_connections.empty()) delete _connections.begin()->first;`
loop: destroys registry entries one at a time until none remain. -/
def destroyAll : List Nat → List DtorEvent
  | [] => []
  | c :: cs => DtorEvent.destroyConnection c :: destroyAll cs

/-- The trailing `if (fd != -1) close(fd);` statements of the destructor,
given which descriptors are open. -/
def closeSequence (listenOpen pipeReadOpen pipeWriteOpen epollOpen : Bool) :
    List DtorEvent :=
  (if listenOpen then [DtorEvent.closeListenSock] else []) ++
  (if pipeReadOpen then [DtorEvent.closePipeRead] else []) ++
  (if pipeWriteOpen then [DtorEvent.closePipeWrite] else []) ++
  (if epollOpen then [DtorEvent.closeEpollFd] else [])

/-- The full `Server::~Server` body as an event trace. -/
def serverDtor (conns : List Nat)
    (listenOpen pipeReadOpen pipeWriteOpen epollOpen : Bool) :
    List DtorEvent :=
  destroyAll conns ++ closeSequence listenOpen pipeReadOpen pipeWriteOpen epollOpen

/-! ## PageRequest (internal/PageRequest.h lines 35-86) -/

/-- The fields of `PageRequest` that `contentLength()` and `content()`
read: `_contentLength` and the `_content` vector. -/
structure PageRequest where
  contentLengthField : Nat
  contentField : List (Fin 256)
  deriving DecidableEq, Repr

/-- `PageRequest::contentLength()` : returns `_contentLength`. -/
def PageRequest.contentLength (r : PageRequest) : Nat :=
  r.contentLengthField

/-- `PageRequest::content()` :
`return _contentLength > 0 ? &_content[0] : NULL;`.  The returned pointer
is modelled as `some` of the byte sequence starting at `&_content[0]`
(i.e. the vector's contents); `NULL` is `none`.  The `_content` vector is
only indexed in the `some` branch. -/
def PageRequest.content (r : PageRequest) : Option (List (Fin 256)) :=
  if r.contentLengthField > 0 then some r.contentField else none

/-! ## Theorems -/

/-- C1: on a successful accept, `Server::handleAccept` does set the socket
non-blocking and enable `SO_LINGER` before registering with the poller and
inserting into the registry — but the linger time it installs is 500
seconds (`linger.l_linger = 500`), not the 5 seconds claimed (and claimed
by the source's own comment "// 5 seconds"): `l_linger` is measured in
seconds by the sockets API. -/
theorem C1_handleAccept_linger_is_500 :
    handleAccept true true true true true =
      [Op.acceptCall, Op.setLinger 500, Op.setNonBlocking, Op.setReuseAddr,
       Op.epollAdd EPOLLIN, Op.registryInsert] ∧
    (handleAccept true true true true true).count (Op.setLinger 5) = 0 ∧
    (handleAccept true true true true true).count (Op.setLinger 500) = 1 := by
  decide

/-- C2: the reactor drains the wakeup pipe completely on each notification
(the read loop leaves 0 bytes for any number of available chunks), and the
post-loop test `errno != EAGAIN || errno != EWOULDBLOCK` (with the Linux
values `EAGAIN = EWOULDBLOCK = 11`) sets `_terminate` exactly when the
final errno is neither `EAGAIN` nor `EWOULDBLOCK`. -/
theorem C2_wake_drain_terminate (errno avail : Nat) :
    drainWakePipe avail = 0 ∧
    (wakeReadSetsTerminate errno = false ↔
      (errno = EAGAIN ∨ errno = EWOULDBLOCK)) := by
  constructor
  · induction avail with
    | zero => rfl
    | succ n ih => simpa [drainWakePipe] using ih
  · simp [wakeReadSetsTerminate, EAGAIN, EWOULDBLOCK]

/-- C2 witness: with errno `EAGAIN` the terminate flag is not set, and a
pipe holding 3 chunks is fully drained. -/
theorem C2_wake_drain_terminate_witness :
    wakeReadSetsTerminate EAGAIN = false ∧ drainWakePipe 3 = 0 :=
  ⟨((C2_wake_drain_terminate 11 3).2).mpr (Or.inl rfl),
   (C2_wake_drain_terminate 11 3).1⟩

/-- C3 counterexample: with 2 connections pending in the backlog, one
readable event on the listening socket accepts exactly one of them
(`handleAccept` makes a single `::accept` call, server.cpp lines 287-296;
there is no loop), so the claimed accept-until-would-block behaviour,
which would accept both, does not hold. -/
theorem C3_counterexample :
    serveListenReadable ⟨2, 0⟩ = ⟨1, 1⟩ ∧
    serveListenReadableSpec ⟨2, 0⟩ = ⟨0, 2⟩ ∧
    serveListenReadable ⟨2, 0⟩ ≠ serveListenReadableSpec ⟨2, 0⟩ := by
  decide

/-- C3 amended: a readable event on the listening socket causes exactly one
`::accept` call, accepting exactly one pending connection; remaining
pending connections are picked up at later readiness events (the poller is
level-triggered). -/
theorem C3_single_accept_per_event (s : ListenState) (h : 0 < s.pending) :
    serveListenReadable s =
      { pending := s.pending - 1, accepted := s.accepted + 1 } ∧
    ∀ a b c d e : Bool, (handleAccept a b c d e).count Op.acceptCall = 1 := by
  constructor
  · unfold serveListenReadable handleAcceptPending
    rw [if_neg (by omega)]
  · decide

/-- C3 amended witness: at backlog state ⟨2, 0⟩ exactly one connection is
accepted. -/
theorem C3_single_accept_per_event_witness :
    serveListenReadable ⟨2, 0⟩ = ⟨1, 1⟩ ∧
    ∀ a b c d e : Bool, (handleAccept a b c d e).count Op.acceptCall = 1 :=
  C3_single_accept_per_event ⟨2, 0⟩ (by decide)

/-- C4 counterexample: the registry-mutating insertion path
(`Server::handleAccept`, which performs `_connections.insert`) never calls
`checkThread()`, on any syscall outcome — here shown on the full success
path, which does insert into the registry; only `Server::remove` checks. -/
theorem C4_counterexample :
    (handleAccept true true true true true).count Op.checkThreadCall = 0 ∧
    (handleAccept true true true true true).count Op.registryInsert = 1 ∧
    removeTrace.count Op.checkThreadCall = 1 := by
  decide

/-- C4 amended: the removal API checks the calling thread first
(`checkThread()` is the first operation of `Server::remove`, and it throws
exactly when the calling thread id differs from the recorded reactor
thread id); the insertion path (`handleAccept`) performs no thread check
on any syscall outcome. -/
theorem C4_thread_check (t u : Int) :
    removeTrace.head? = some Op.checkThreadCall ∧
    (∀ a b c d e : Bool,
      (handleAccept a b c d e).count Op.checkThreadCall = 0) ∧
    (checkThread t u = true ↔ t ≠ u) := by
  refine ⟨rfl, by decide, ?_⟩
  simp [checkThread]

/-- C4 amended witness: `checkThread` on thread 3 with recorded reactor
thread 7 reports the fatal mismatch. -/
theorem C4_thread_check_witness : checkThread 3 7 = true :=
  ((C4_thread_check 3 7).2.2).mpr (by decide)

/-- C5: the reaper scan collects a connection exactly when its
bytes-received counter is 0 and its age `now - acceptTime` is at least the
lame-connection timeout; the default timeout is 10 seconds.  In
particular a connection with at least one byte received is never
collected. -/
theorem C5_lame_reap (now timeoutSeconds : Int) (conns : List ConnEntry)
    (c : ConnEntry) :
    (c ∈ lameScan now timeoutSeconds conns ↔
      c ∈ conns ∧ c.bytesReceived = 0 ∧ now - c.acceptTime ≥ timeoutSeconds) ∧
    DefaultLameConnectionTimeoutSeconds = 10 := by
  refine ⟨?_, rfl⟩
  simp [lameScan, List.mem_filter, and_assoc]

/-- C5 witness: a connection accepted at time 0 with 0 bytes received is
reaped at time 10 under the default timeout. -/
theorem C5_lame_reap_witness :
    (⟨0, 0⟩ : ConnEntry) ∈ lameScan 10 10 [⟨0, 0⟩] :=
  (C5_lame_reap 10 10 [⟨0, 0⟩] ⟨0, 0⟩).1.mpr ⟨by decide, rfl, by decide⟩

/-- C6: in every reactor-loop iteration, the tasks enqueued at the top of
the iteration each run (in FIFO order) strictly before the iteration's
`epoll_wait`: the iteration trace is exactly the run events followed by
the poll wait. -/
theorem C6_tasks_run_before_poll {τ : Type} (queue : List τ) :
    serveIteration queue =
      queue.map LoopEvent.runTask ++ [LoopEvent.pollWait] := by
  unfold serveIteration
  congr 1
  induction queue with
  | nil => rfl
  | cons t ts ih => simp [drainTasks, ih]

/-- C7: a connection event whose mask has both `EPOLLIN` and `EPOLLOUT`
set and no bits outside `EPOLLIN|EPOLLOUT|EPOLLHUP` and no `EPOLLHUP`
drives the writer side before the reader side. -/
theorem C7_write_serviced_first (mask : Nat)
    (hClean : mask &&& connUnexpectedBits = 0)
    (hHup : mask &&& EPOLLHUP = 0)
    (hOut : mask &&& EPOLLOUT ≠ 0)
    (hIn : mask &&& EPOLLIN ≠ 0) :
    dispatchConnection mask = [ConnAction.write, ConnAction.read] := by
  simp [dispatchConnection, hClean, hHup, hOut, hIn]

/-- C7 witness: mask `EPOLLIN|EPOLLOUT` yields write then read. -/
theorem C7_write_serviced_first_witness :
    dispatchConnection (EPOLLIN ||| EPOLLOUT) =
      [ConnAction.write, ConnAction.read] :=
  C7_write_serviced_first (EPOLLIN ||| EPOLLOUT)
    (by decide) (by decide) (by decide) (by decide)

/-- C8: the destructor's trace is all of the registry's connections being
destroyed, followed by the resource closes; every event after the
destroys is a `close`, so every registered connection is destroyed before
any OS resource is closed. -/
theorem C8_destroy_before_close (conns : List Nat)
    (lo pr pw ep : Bool) :
    serverDtor conns lo pr pw ep =
      conns.map DtorEvent.destroyConnection ++
        closeSequence lo pr pw ep ∧
    (closeSequence lo pr pw ep).all DtorEvent.isClose = true := by
  constructor
  · unfold serverDtor
    congr 1
    induction conns with
    | nil => rfl
    | cons c cs ih => simp [destroyAll, ih]
  · cases lo <;> cases pr <;> cases pw <;> cases ep <;> rfl

/-- C9: the epoll mask installed by `subscribeToWriteEvents` is
`EPOLLIN|EPOLLOUT` and the one installed by `unsubscribeFromWriteEvents`
is `EPOLLIN`; both masks retain the `EPOLLIN` bit, so toggling the write
subscription never disables read interest. -/
theorem C9_write_toggle_keeps_epollin :
    subscribeToWriteEvents = [Op.epollMod (EPOLLIN ||| EPOLLOUT)] ∧
    unsubscribeFromWriteEvents = [Op.epollMod EPOLLIN] ∧
    (EPOLLIN ||| EPOLLOUT) &&& EPOLLIN = EPOLLIN ∧
    EPOLLIN &&& EPOLLIN = EPOLLIN := by
  decide

/-- C10: `PageRequest::content()` returns `NULL` exactly when
`contentLength()` is 0, and returns the pointer to the body bytes exactly
when `contentLength()` is positive (the `_content` vector is only indexed
in that branch of the conditional). -/
theorem C10_content_null_iff_no_length (r : PageRequest) :
    (r.content = none ↔ r.contentLength = 0) ∧
    (r.content = some r.contentField ↔ 0 < r.contentLength) := by
  by_cases h : r.contentLengthField = 0
  · simp [PageRequest.content, PageRequest.contentLength, h]
  · simp [PageRequest.content, PageRequest.contentLength, h,
      Nat.pos_of_ne_zero h]

/-- C10 witness: a request with content length 0 and an empty body vector
yields `NULL` from `content()`. -/
theorem C10_content_null_iff_no_length_witness :
    ({ contentLengthField := 0, contentField := [] } : PageRequest).content
      = none :=
  (C10_content_null_iff_no_length _).1.mpr rfl

end SeaSocks
